import Mathlib

/-!
Verification of the windowed-aggregation pipeline of the GEM2020 tutorial
repository.  The authoritative implementation is `precond2.py`, whose three
functions `load_omni`, `calc_clock` and `get_precond` are shallowly embedded
below.  Timestamps are modelled as integer microseconds since
0001-01-01 00:00 — the exact value and resolution of Python's proleptic-
Gregorian `datetime`/`timedelta` arithmetic, so datetime computations,
comparisons and range checks are reproduced exactly.  File tokens are
modelled by their `int()`- and `float()`-parseability together with their
exact numeric value; Python exceptions are modelled by `Except`; numpy's
NaN result for the mean of an empty selection is modelled by `Option`
being `none`.
-/

/-- Python exceptions that the embedded code can raise.
`indexError` models `IndexError` (`parts[k]` with `k` out of range),
`valueError` models `ValueError` (`int()`/`float()` on a bad token, or a
`datetime` year outside 1..9999), and `overflowError` models
`OverflowError` (`datetime + timedelta` or `datetime - timedelta` leaving
the datetime range). -/
inductive PyErr where
  | indexError
  | valueError
  | overflowError
deriving DecidableEq

/-- Equality of embedded call results (`Except`) is decidable whenever the
error and value types have decidable equality; core does not provide this
instance. -/
instance [DecidableEq ε] [DecidableEq α] : DecidableEq (Except ε α) := fun x y =>
  match x, y with
  | .ok a, .ok b =>
    if h : a = b then .isTrue (congrArg Except.ok h)
    else .isFalse fun hc => h (Except.ok.inj hc)
  | .error a, .error b =>
    if h : a = b then .isTrue (congrArg Except.error h)
    else .isFalse fun hc => h (Except.error.inj hc)
  | .ok _, .error _ => .isFalse fun hc => Except.noConfusion hc
  | .error _, .ok _ => .isFalse fun hc => Except.noConfusion hc

/-- One whitespace-separated token of an input line, abstracted by whether
Python's `int()` and `float()` accept it and, if so, which exact number it
denotes.  (A token accepted by `int()` is also accepted by `float()`.) -/
structure Token where
  asInt : Option ℤ
  asFloat : Option ℚ
deriving DecidableEq

/-- A line of the input file, already split on whitespace (`l.split()`). -/
abbrev Line := List Token

/-- An integer-looking token such as `2000` or `-57`. -/
def itok (n : ℤ) : Token := ⟨some n, some (n : ℚ)⟩

/-- A float-looking token such as `12.5`; `int()` rejects it. -/
def ftok (q : ℚ) : Token := ⟨none, some q⟩

/-- Microseconds per hour: the resolution of Python's `datetime` is 1 μs,
so all datetime arithmetic is exact integer arithmetic on microseconds. -/
def usPerHour : ℤ := 3600000000

/-- Microseconds per day (`dt.timedelta(days=1)`). -/
def usPerDay : ℤ := 86400000000

/-- `365*(y-1) + (y-1)/4 - (y-1)/100 + (y-1)/400`: the number of days before
January 1 of proleptic-Gregorian year `y` (only used with `1 ≤ y`, where
truncating division agrees with Python's floor division). -/
def daysBefore (y : ℤ) : ℤ :=
  365 * (y - 1) + (y - 1) / 4 - (y - 1) / 100 + (y - 1) / 400

/-- Microseconds from 0001-01-01 00:00 (= `datetime.min`) to Jan 1 00:00 of
year `y`: the model of `dt.datetime(y, 1, 1, 0, 0)`. -/
def jan1Us (y : ℤ) : ℤ := usPerDay * daysBefore y

/-- One microsecond past `datetime.max` (= 9999-12-31 23:59:59.999999): a
computed datetime `t` overflows exactly when `t < 0` or `maxUs ≤ t`. -/
def maxUs : ℤ := usPerDay * daysBefore 10000

/-- `int(parts[k])`: `IndexError` if the line is too short, `ValueError` if
the token is not an integer literal. -/
def intAt (parts : Line) (k : ℕ) : Except PyErr ℤ :=
  match parts[k]? with
  | none => .error .indexError
  | some t =>
    match t.asInt with
    | none => .error .valueError
    | some n => .ok n

/-- `float(parts[k])` (the conversion numpy performs on assignment into a
float array): `IndexError` if the line is too short, `ValueError` if the
token is not numeric. -/
def floatAt (parts : Line) (k : ℕ) : Except PyErr ℚ :=
  match parts[k]? with
  | none => .error .indexError
  | some t =>
    match t.asFloat with
    | none => .error .valueError
    | some q => .ok q

/-- The values `load_omni` extracts from one input line: the timestamp
`datetime(int(parts[0]),1,1,0,0) + timedelta(days=int(parts[1]),
hours=int(parts[2]))` and the eight entries `parts[j+2]` for
`j = 0..7` (note the source's index `j+2`, so `b` receives `parts[2]`,
the hour column, and `dst` receives `parts[9]`, the pressure column). -/
structure LineRec where
  time : ℤ
  b : ℚ
  bx : ℚ
  by_ : ℚ
  bz : ℚ
  dens : ℚ
  v : ℚ
  pdyn : ℚ
  dst : ℚ
deriving DecidableEq

/-- The body of `load_omni`'s per-line loop in `precond2.py`
(lines 89-104), in the source's evaluation order. -/
def parseLine (parts : Line) : Except PyErr LineRec := do
  let y ← intAt parts 0
  if y < 1 ∨ 9999 < y then throw PyErr.valueError
  let d ← intAt parts 1
  let h ← intAt parts 2
  let t : ℤ := jan1Us y + usPerDay * d + usPerHour * h
  if t < 0 ∨ maxUs ≤ t then throw PyErr.overflowError
  let b ← floatAt parts 2
  let bx ← floatAt parts 3
  let byv ← floatAt parts 4
  let bz ← floatAt parts 5
  let dens ← floatAt parts 6
  let v ← floatAt parts 7
  let pdyn ← floatAt parts 8
  let dst ← floatAt parts 9
  pure ⟨t, b, bx, byv, bz, dens, v, pdyn, dst⟩

/-- `for i, l in enumerate(lines): ...` — the loop aborts at the first
failing line, so no partial dataset ever escapes. -/
def parseLines : List Line → Except PyErr (List LineRec)
  | [] => .ok []
  | l :: rest => do
    let r ← parseLine l
    let rs ← parseLines rest
    pure (r :: rs)

/-- The `'time'` entry of the dictionary built by `load_omni`.  It is
initialised to `np.zeros(nRec, dtype=object)` but the loop assigns
`data['time'] = ...` (without `[i]`), replacing the whole entry by the
scalar timestamp of the current line; after the loop it is therefore the
last line's scalar timestamp, or the initial length-0 array when the file
is empty. -/
inductive TimeField where
  | arr (ts : List ℤ)
  | scalar (t : ℤ)
deriving DecidableEq

/-- The dictionary returned by `load_omni`, with one key per variable name
in `varnames = ['b','bx','by','bz','dens','v','pdyn','dst']`, the `'time'`
entry, and the `'clock'` entry that only exists once `calc_clock` has run
(`none` = key absent).  The Python key `by` is spelled `by_` because `by`
is reserved in Lean. -/
structure OmniData where
  b : List ℚ
  bx : List ℚ
  by_ : List ℚ
  bz : List ℚ
  dens : List ℚ
  v : List ℚ
  pdyn : List ℚ
  dst : List ℚ
  time : TimeField
  clock : Option (List ℝ)

/-- `load_omni` of `precond2.py` (file reading abstracted away: `lines` is
the list of already-split lines). -/
def load_omni (lines : List Line) : Except PyErr OmniData := do
  let recs ← parseLines lines
  pure
    { b := recs.map LineRec.b
      bx := recs.map LineRec.bx
      by_ := recs.map LineRec.by_
      bz := recs.map LineRec.bz
      dens := recs.map LineRec.dens
      v := recs.map LineRec.v
      pdyn := recs.map LineRec.pdyn
      dst := recs.map LineRec.dst
      time :=
        match recs.getLast? with
        | none => TimeField.arr (List.replicate lines.length 0)
        | some r => TimeField.scalar r.time
      clock := none }

/-- The two-argument arctangent (IEEE convention, value in `(-π, π]`,
`atan2 0 0 = 0`), as computed by `np.arctan2(y, x)`.  Arguments are the
exact rationals the embedded arrays hold. -/
noncomputable def atan2 (y x : ℚ) : ℝ :=
  if 0 < x then Real.arctan ((y : ℝ) / (x : ℝ))
  else if x < 0 ∧ 0 ≤ y then Real.arctan ((y : ℝ) / (x : ℝ)) + Real.pi
  else if x < 0 then Real.arctan ((y : ℝ) / (x : ℝ)) - Real.pi
  else if 0 < y then Real.pi / 2
  else if y < 0 then -(Real.pi / 2)
  else 0

/-- The per-record clock angle computed by `calc_clock` in `precond2.py`
line 135: `(180.0/np.pi)*np.arctan2(data['bz'], data['by'])` — note the
argument order: `bz` first, `by` second. -/
noncomputable def clock_val (bz byv : ℚ) : ℝ := (180 / Real.pi) * atan2 bz byv

/-- Modelled from the spec: the clock angle the specification prescribes,
`clock = degrees(atan2(by, bz))` (`by` first).  Kept only to compare with
the source's `clock_val`. -/
noncomputable def clock_spec (byv bz : ℚ) : ℝ := (180 / Real.pi) * atan2 byv bz

/-- `calc_clock` of `precond2.py`: adds (or overwrites) the `'clock'` entry,
computed elementwise from the unchanged `'bz'` and `'by'` entries. -/
noncomputable def calc_clock (d : OmniData) : OmniData :=
  { d with clock := some (List.zipWith clock_val d.bz d.by_) }

/-- `epoch - dt.timedelta(days=1)` of `precond2.py` line 173, evaluated once
before any comparison: datetime minus timedelta raises `OverflowError`
whenever the result leaves `[datetime.min, datetime.max]` — for this
subtraction, exactly when the epoch lies within one day of `datetime.min`
(the general range check is kept as Python performs it). -/
def windowLow (epoch : ℤ) : Except PyErr ℤ :=
  if epoch - usPerDay < 0 ∨ maxUs ≤ epoch - usPerDay then .error .overflowError
  else .ok (epoch - usPerDay)

/-- The selection `data[varname][mask]` with
`mask = (data['time'] >= epoch - dt.timedelta(days=1)) & (data['time'] <= epoch)`
(`precond2.py` line 173; the `span` argument is not consulted): `lo` is the
value of `epoch - dt.timedelta(days=1)` already computed — and checked for
datetime overflow — by `windowLow`.  When the `'time'` entry is a scalar
datetime the mask is a single boolean, so numpy selects either the whole
array or nothing; in the (empty-file) array case the comparison is
elementwise. -/
def maskedVals (tf : TimeField) (lo epoch : ℤ) (xs : List α) : List α :=
  match tf with
  | TimeField.arr ts =>
    ((ts.zip xs).filter fun p => decide (lo ≤ p.1 ∧ p.1 ≤ epoch)).map
      Prod.snd
  | TimeField.scalar t => if lo ≤ t ∧ t ≤ epoch then xs else []

/-- numpy's `.mean()` over a selected sub-array of exact rationals: the
arithmetic mean, or NaN (modelled `none`) when the selection is empty. -/
def meanQ (l : List ℚ) : Option ℚ :=
  match l with
  | [] => none
  | _ => some (l.sum / l.length)

/-- numpy's `.mean()` for the (real-valued) clock-angle array. -/
noncomputable def meanR (l : List ℝ) : Option ℝ :=
  match l with
  | [] => none
  | _ => some (l.sum / l.length)

/-- The `means` dictionary built by `get_precond`: every key of the data
dictionary except `'time'`, i.e. the eight physical variables plus
`'clock'`. -/
structure Means where
  b : Option ℚ
  bx : Option ℚ
  by_ : Option ℚ
  bz : Option ℚ
  dens : Option ℚ
  v : Option ℚ
  pdyn : Option ℚ
  dst : Option ℚ
  clock : Option ℝ

/-- The aggregation loop of `get_precond` (`precond2.py` lines 176-183): a
pure read of the dataset — the loop writes only into the fresh `means`
dictionary, never into `data`. -/
noncomputable def meansOf (data : OmniData) (lo epoch : ℤ) : Means :=
  { b := meanQ (maskedVals data.time lo epoch data.b)
    bx := meanQ (maskedVals data.time lo epoch data.bx)
    by_ := meanQ (maskedVals data.time lo epoch data.by_)
    bz := meanQ (maskedVals data.time lo epoch data.bz)
    dens := meanQ (maskedVals data.time lo epoch data.dens)
    v := meanQ (maskedVals data.time lo epoch data.v)
    pdyn := meanQ (maskedVals data.time lo epoch data.pdyn)
    dst := meanQ (maskedVals data.time lo epoch data.dst)
    clock := meanR (maskedVals data.time lo epoch (data.clock.getD [])) }

/-- `get_precond` of `precond2.py` (the spec's `aggregate`): load the file,
derive the clock angle (line 166, before the mask; `calc_clock` is pure so
its placement is immaterial), compute the window bound — which can raise
`OverflowError` near `datetime.min` — then select and average.  The `span`
parameter is accepted, as in the source, where it is never used (the window
is hard-coded to `dt.timedelta(days=1)`); the `debug` printing path is
omitted as out of scope. -/
noncomputable def get_precond (lines : List Line) (epoch : ℤ) (span : ℚ) :
    Except PyErr Means := do
  let data ← load_omni lines
  let lo ← windowLow epoch
  pure (meansOf (calc_clock data) lo epoch)

/-- Whether an embedded Python call returned normally (no exception). -/
def exOk : Except PyErr α → Bool
  | .ok _ => true
  | .error _ => false

/-- The fixture's proton density 12.5. -/
def densVal : ℚ := 25 / 2

/-- The fixture's flow pressure 9.3. -/
def pdynVal : ℚ := 93 / 10

/-- Line 1 of the `omni_test.lst` fixture (knownData of `test_precond.py`):
2000-07-14 12:00 under the additive day-of-year convention, i.e. DOY
token 195, with b=1, bx=1, by=0, bz=1, dens=12.5, v=610, pdyn=9.3,
dst=-57. -/
def fl0 : Line :=
  [itok 2000, itok 195, itok 12, ftok 1, ftok 1, ftok 0, ftok 1,
   ftok densVal, ftok 610, ftok pdynVal, itok (-57)]

/-- Fixture line 2: 2000-07-14 13:00, b=2, by=1, bz=0. -/
def fl1 : Line :=
  [itok 2000, itok 195, itok 13, ftok 2, ftok 1, ftok 1, ftok 0,
   ftok densVal, ftok 610, ftok pdynVal, itok (-57)]

/-- Fixture line 3: 2000-07-14 16:00, b=3, by=0, bz=-1. -/
def fl2 : Line :=
  [itok 2000, itok 195, itok 16, ftok 3, ftok 1, ftok 0, ftok (-1),
   ftok densVal, ftok 610, ftok pdynVal, itok (-57)]

/-- Fixture line 4: 2000-07-14 18:00, b=4, by=-1, bz=0. -/
def fl3 : Line :=
  [itok 2000, itok 195, itok 18, ftok 4, ftok 1, ftok (-1), ftok 0,
   ftok densVal, ftok 610, ftok pdynVal, itok (-57)]

/-- Fixture line 5: 2000-07-15 13:00 (the storm epoch), b=5, by=1, bz=1. -/
def fl4 : Line :=
  [itok 2000, itok 196, itok 13, ftok 5, ftok 1, ftok 1, ftok 1,
   ftok densVal, ftok 610, ftok pdynVal, itok (-57)]

/-- Fixture line 6: 2000-07-15 14:00, b=6, by=1, bz=1. -/
def fl5 : Line :=
  [itok 2000, itok 196, itok 14, ftok 6, ftok 1, ftok 1, ftok 1,
   ftok densVal, ftok 610, ftok pdynVal, itok (-57)]

/-- The six-record `omni_test.lst` fixture of `test_precond.py`. -/
def omniTestLines : List Line := [fl0, fl1, fl2, fl3, fl4, fl5]

/-- The storm epoch `dt.datetime(2000, 7, 15, 13, 0, 0)` of the tests, in
microseconds since 0001-01-01 00:00: `jan1Us 2000 + 196*usPerDay +
13*usPerHour = (24*730119 + 24*196 + 13) * usPerHour`. -/
def testEpoch : ℤ := 17527573 * usPerHour

/-- The 1.58 flow-pressure value of the last `omni_july2000.lst` record. -/
def julyPdyn : ℚ := 79 / 50

/-- The last record of `omni_july2000.lst` as checked by `testReadJuly`:
`2000 201 23  7.4  4.4  5.7 -1.7  3.3 478.0 1.58 -61` (DOY token 201 puts
it at 2000-07-20 23:00 under the additive convention). -/
def julyLine : Line :=
  [itok 2000, itok 201, itok 23, ftok (37/5), ftok (22/5), ftok (57/10),
   ftok (-17/10), ftok (33/10), ftok 478, ftok julyPdyn, itok (-61)]

/-- A one-line file whose doy token is 1 and whose hour token is 0: under
the additive convention its timestamp is Jan 2 00:00, not Jan 1 00:00. -/
def quirkLine : Line :=
  [itok 2000, itok 1, itok 0, ftok 1, ftok 1, ftok 0, ftok 1, ftok 1,
   ftok 1, ftok 1, itok 0]

/-- A concrete post-parse dataset whose (scalar) timestamp, Jan 1 2000,
lies after the window of epoch Jan 1 1999, so every selection is empty. -/
def demoData : OmniData :=
  { b := [1], bx := [1], by_ := [0], bz := [1], dens := [1], v := [1],
    pdyn := [1], dst := [1], time := TimeField.scalar (jan1Us 2000),
    clock := none }

lemma exBind_ok (a : α) (f : α → Except PyErr β) :
    ((Except.ok a : Except PyErr α) >>= f) = f a := rfl

lemma exBind_error (e : PyErr) (f : α → Except PyErr β) :
    ((Except.error e : Except PyErr α) >>= f) = .error e := rfl

lemma parseLines_ok_iff (lines : List Line) :
    exOk (parseLines lines) = true ↔ ∀ l ∈ lines, exOk (parseLine l) = true := by
  induction lines with
  | nil => simp [parseLines, exOk]
  | cons l rest ih =>
    show exOk (parseLine l >>= fun r => parseLines rest >>= fun rs => pure (r :: rs))
        = true ↔ _
    cases hl : parseLine l with
    | error e =>
      rw [exBind_error]
      simp only [List.mem_cons]
      constructor
      · intro h
        exact absurd h (by simp [exOk])
      · intro h
        have := h l (Or.inl rfl)
        rw [hl] at this
        exact absurd this (by simp [exOk])
    | ok r =>
      rw [exBind_ok]
      cases hr : parseLines rest with
      | error e =>
        rw [exBind_error]
        rw [hr] at ih
        simp only [List.mem_cons]
        constructor
        · intro h
          exact absurd h (by simp [exOk])
        · intro h
          have : ∀ x ∈ rest, exOk (parseLine x) = true := fun x hx => h x (Or.inr hx)
          have := ih.mpr this
          exact absurd this (by simp [exOk])
      | ok rs =>
        rw [exBind_ok]
        rw [hr] at ih
        simp only [List.mem_cons]
        constructor
        · intro _ x hx
          rcases hx with hx | hx
          · rw [hx, hl]; rfl
          · exact (ih.mp (by rfl)) x hx
        · intro _
          rfl

lemma load_omni_ok_iff (lines : List Line) :
    exOk (load_omni lines) = true ↔ exOk (parseLines lines) = true := by
  show exOk (parseLines lines >>= _) = true ↔ _
  cases h : parseLines lines with
  | error e =>
    rw [exBind_error]
    exact Iff.rfl
  | ok recs =>
    rw [exBind_ok]
    exact iff_of_true rfl rfl

lemma atan2_zero_one : atan2 0 1 = 0 := by
  unfold atan2
  norm_num [Real.arctan_zero]

lemma atan2_one_zero : atan2 1 0 = Real.pi / 2 := by
  unfold atan2
  norm_num

lemma atan2_neg_one_zero : atan2 (-1) 0 = -(Real.pi / 2) := by
  unfold atan2
  norm_num

lemma atan2_zero_neg_one : atan2 0 (-1) = Real.pi := by
  unfold atan2
  norm_num [Real.arctan_zero]

lemma atan2_range (y x : ℚ) : -Real.pi < atan2 y x ∧ atan2 y x ≤ Real.pi := by
  have hpi := Real.pi_pos
  have h1 := Real.arctan_lt_pi_div_two ((y : ℝ) / (x : ℝ))
  have h2 := Real.neg_pi_div_two_lt_arctan ((y : ℝ) / (x : ℝ))
  unfold atan2
  split_ifs with hx hxy hx2 hy hy2
  · constructor <;> linarith
  · have hyx : (y : ℝ) / (x : ℝ) ≤ 0 := by
      apply div_nonpos_iff.mpr
      exact Or.inl ⟨by exact_mod_cast hxy.2, by exact_mod_cast hxy.1.le⟩
    have h3 : Real.arctan ((y : ℝ) / (x : ℝ)) ≤ 0 := by
      have := Real.arctan_strictMono.monotone hyx
      rwa [Real.arctan_zero] at this
    constructor <;> linarith
  · have hyneg : y < 0 := by
      rcases lt_or_le y 0 with h | h
      · exact h
      · exact absurd ⟨hx2, h⟩ hxy
    have hyx : 0 < (y : ℝ) / (x : ℝ) := by
      apply div_pos_iff.mpr
      exact Or.inr ⟨by exact_mod_cast hyneg, by exact_mod_cast hx2⟩
    have h3 : 0 < Real.arctan ((y : ℝ) / (x : ℝ)) := by
      have := Real.arctan_strictMono hyx
      rwa [Real.arctan_zero] at this
    constructor <;> linarith
  · constructor <;> linarith
  · constructor <;> linarith
  · constructor <;> linarith

lemma clock_val_range (bz byv : ℚ) :
    -180 < clock_val bz byv ∧ clock_val bz byv ≤ 180 := by
  obtain ⟨hl, hu⟩ := atan2_range bz byv
  have hpi := Real.pi_pos
  have h180 : (0 : ℝ) < 180 / Real.pi := by positivity
  have hmul : 180 / Real.pi * Real.pi = 180 := by field_simp
  unfold clock_val
  constructor
  · have := mul_lt_mul_of_pos_left hl h180
    rw [mul_neg, hmul] at this
    linarith
  · have := mul_le_mul_of_nonneg_left hu h180.le
    rw [hmul] at this
    linarith

lemma clock_val_by0_bz1 : clock_val 1 0 = 90 := by
  unfold clock_val
  rw [atan2_one_zero]
  have hpi := Real.pi_ne_zero
  field_simp
  ring

lemma clock_val_by1_bz0 : clock_val 0 1 = 0 := by
  unfold clock_val
  rw [atan2_zero_one, mul_zero]

lemma clock_val_by0_bzneg1 : clock_val (-1) 0 = -90 := by
  unfold clock_val
  rw [atan2_neg_one_zero]
  have hpi := Real.pi_ne_zero
  field_simp
  ring

lemma clock_val_byneg1_bz0 : clock_val 0 (-1) = 180 := by
  unfold clock_val
  rw [atan2_zero_neg_one]
  have hpi := Real.pi_ne_zero
  field_simp

lemma clock_spec_by0_bz1 : clock_spec 0 1 = 0 := by
  unfold clock_spec
  rw [atan2_zero_one, mul_zero]

/-- C1: the claim says the records used for aggregation are exactly those
with `epoch - span <= t <= epoch`, so the record whose timestamp equals the
epoch is included in the mean.  The code violates this: `load_omni` stores
only the last line's timestamp (the assignment `data['time'] = ...` lacks
`[i]`), so on the 6-record test fixture with the tests' epoch the record
parsed from line 5 has timestamp exactly `testEpoch` (inside the window),
yet the selection the mean is taken over is empty and the b-mean is NaN. -/
theorem C1_window_inclusivity_bug :
    (parseLine fl4).map LineRec.time = .ok testEpoch ∧
    ((load_omni omniTestLines).map fun d =>
        maskedVals d.time (testEpoch - usPerDay) testEpoch d.b)
      = .ok [] ∧
    (testEpoch - usPerDay ≤ testEpoch ∧ testEpoch ≤ testEpoch) ∧
    (get_precond omniTestLines testEpoch 24).map Means.b = .ok none := by
  refine ⟨by decide, by rfl, by decide, by rfl⟩

/-- C2 counterexample: the claim says the derived clock angle is
`degrees(atan2(by, bz))`, which at `(by, bz) = (0, 1)` is 0 degrees; but
`calc_clock` computes `degrees(arctan2(bz, by))` (`clock_val`), which at
that record is 90 degrees. -/
theorem C2_clock_convention_counterexample :
    clock_val 1 0 = 90 ∧ clock_spec 0 1 = 0 ∧ clock_val 1 0 ≠ clock_spec 0 1 := by
  refine ⟨clock_val_by0_bz1, clock_spec_by0_bz1, ?_⟩
  rw [clock_val_by0_bz1, clock_spec_by0_bz1]
  norm_num

/-- C2 amended: the derived clock angle equals `degrees(atan2(bz, by))` —
the argument order of the source, matching its own test `TestClock` — so
(by=0,bz=1) yields 90, (by=1,bz=0) yields 0, (by=0,bz=-1) yields -90,
(by=-1,bz=0) yields 180, and every result lies in (-180, 180]. -/
theorem C2_clock_convention_amended :
    clock_val 1 0 = 90 ∧ clock_val 0 1 = 0 ∧ clock_val (-1) 0 = -90 ∧
    clock_val 0 (-1) = 180 ∧
    ∀ bz byv : ℚ, -180 < clock_val bz byv ∧ clock_val bz byv ≤ 180 :=
  ⟨clock_val_by0_bz1, clock_val_by1_bz0, clock_val_by0_bzneg1,
   clock_val_byneg1_bz0, clock_val_range⟩

/-- C3: the claim says the 8 trailing columns (4..11) are attached, in
order, to `b, bx, by, bz, dens, v, pdyn, dst`.  The code attaches
`parts[j+2]` instead of `parts[j+3]`: on the last `omni_july2000.lst`
record (`2000 201 23 7.4 4.4 5.7 -1.7 3.3 478.0 1.58 -61`) it yields
b = 23 (the hour token) and dst = 1.58 (the pressure token), while
`testReadJuly` demands b = 7.4 and dst = -61. -/
theorem C3_column_shift_bug :
    (load_omni [julyLine]).map OmniData.b = .ok [23] ∧
    (load_omni [julyLine]).map OmniData.bx = .ok [37/5] ∧
    (load_omni [julyLine]).map OmniData.dst = .ok [julyPdyn] := by
  refine ⟨by rfl, by rfl, by rfl⟩

/-- C4: the claim (and `testMeans`) demands means b=3.5, bx=1.0, by=0.25,
bz=0.0, clock=33.75, dens=12.5, dst=-57.0, pdyn=9.3, v=610.0 on the
6-record fixture with the tests' epoch and a 24 h span.  Because the
scalar `'time'` entry is the last record's 14:00 timestamp, which exceeds
the 13:00 epoch, the window mask is a single `False`, numpy selects
nothing, and every mean — including the clock mean — is NaN. -/
theorem C4_fixture_means_nan :
    (get_precond omniTestLines testEpoch 24).map Means.b = .ok none ∧
    (get_precond omniTestLines testEpoch 24).map Means.bx = .ok none ∧
    (get_precond omniTestLines testEpoch 24).map Means.by_ = .ok none ∧
    (get_precond omniTestLines testEpoch 24).map Means.bz = .ok none ∧
    (get_precond omniTestLines testEpoch 24).map Means.dens = .ok none ∧
    (get_precond omniTestLines testEpoch 24).map Means.v = .ok none ∧
    (get_precond omniTestLines testEpoch 24).map Means.pdyn = .ok none ∧
    (get_precond omniTestLines testEpoch 24).map Means.dst = .ok none ∧
    (get_precond omniTestLines testEpoch 24).map Means.clock = .ok none := by
  refine ⟨by rfl, by rfl, by rfl, by rfl, by rfl, by rfl, by rfl, by rfl, by rfl⟩

/-- C5 counterexample: the claim says the lookback window is
`[epoch - span_hours, epoch]`, so with `span_hours = 2` a record 20 hours
before the epoch could not be selected, and changing the span would change
the selection.  In the code `span` is never consulted: the result is
literally the same for spans 2 and 1000, and a scalar timestamp 20 hours
before the epoch passes the mask even with span 2. -/
theorem C5_span_ignored_counterexample :
    get_precond omniTestLines testEpoch 2 = get_precond omniTestLines testEpoch 1000 ∧
    maskedVals (TimeField.scalar (testEpoch - 20 * usPerHour))
      (testEpoch - usPerDay) testEpoch [(5 : ℚ)] = [5] := by
  exact ⟨rfl, by decide⟩

/-- C5 amended: the `span` parameter of `get_precond` is accepted but
ignored — the result is independent of it, and the window test applied to
a (scalar) timestamp is always `epoch - 24h <= t <= epoch`, with the lower
bound hard-coded to `dt.timedelta(days=1)`. -/
theorem C5_span_ignored_amended :
    (∀ (lines : List Line) (epoch : ℤ) (s1 s2 : ℚ),
      get_precond lines epoch s1 = get_precond lines epoch s2) ∧
    ∀ (t epoch : ℤ) (xs : List ℚ),
      maskedVals (TimeField.scalar t) (epoch - usPerDay) epoch xs
        = if epoch - usPerDay ≤ t ∧ t ≤ epoch then xs else [] :=
  ⟨fun _ _ _ _ => rfl, fun _ _ _ => rfl⟩

/-- C6 counterexample: the claim says that when no record's timestamp
reaches the epoch the aggregation fails with `RangeError` (and an empty
window with `EmptyWindowError`), and that it never returns NaN.  With
epoch 2001-01-01 00:00 — a perfectly valid datetime lying after every
fixture record, so no record reaches it and the selected window is empty —
the code raises nothing: `get_precond` returns normally and the returned
b-mean is NaN (`none`). -/
theorem C6_no_loud_failure_counterexample :
    exOk (get_precond omniTestLines (jan1Us 2001) 24) = true ∧
    (get_precond omniTestLines (jan1Us 2001) 24).map Means.b = .ok none := by
  exact ⟨by rfl, by rfl⟩

/-- C6 amended: no `RangeError` or `EmptyWindowError` exists.  For every
epoch whose window subtraction `epoch - timedelta(days=1)` stays inside
the datetime range, `get_precond` returns normally whenever parsing
succeeds — even when no record reaches the epoch — and a variable whose
selected window is empty gets a NaN (`none`) mean instead of an error;
the only failure the window step itself can raise is the `OverflowError`
of that subtraction, when the epoch lies within one day of
`datetime.min`. -/
theorem C6_nan_policy_amended :
    (∀ (lines : List Line) (epoch : ℤ) (span : ℚ),
      0 ≤ epoch - usPerDay → epoch - usPerDay < maxUs →
      exOk (load_omni lines) = true → exOk (get_precond lines epoch span) = true) ∧
    (∀ (d : OmniData) (lo epoch : ℤ),
      maskedVals d.time lo epoch d.b = [] → (meansOf d lo epoch).b = none) ∧
    ∀ (lines : List Line) (epoch : ℤ) (span : ℚ),
      exOk (load_omni lines) = true → epoch - usPerDay < 0 →
      get_precond lines epoch span = .error PyErr.overflowError := by
  refine ⟨?_, ?_, ?_⟩
  · intro lines epoch span h1 h2 hok
    show exOk (load_omni lines >>= fun data =>
        windowLow epoch >>= fun lo => pure (meansOf (calc_clock data) lo epoch))
      = true
    cases hl : load_omni lines with
    | error e =>
      rw [hl] at hok
      exact absurd hok (by simp [exOk])
    | ok data =>
      rw [exBind_ok, windowLow, if_neg (by omega), exBind_ok]
      rfl
  · intro d lo epoch h
    show meanQ (maskedVals d.time lo epoch d.b) = none
    rw [h]
    rfl
  · intro lines epoch span hok hneg
    show (load_omni lines >>= fun data =>
        windowLow epoch >>= fun lo => pure (meansOf (calc_clock data) lo epoch))
      = .error PyErr.overflowError
    cases hl : load_omni lines with
    | error e =>
      rw [hl] at hok
      exact absurd hok (by simp [exOk])
    | ok data =>
      rw [exBind_ok, windowLow, if_pos (Or.inl hneg), exBind_error]

/-- C6 witness: the never-raises part applied to the parsable test fixture
at the valid epoch 2001-01-01; the NaN part applied to a concrete dataset
whose window (for epoch 1999-01-01) selects nothing; and the overflow part
applied at epoch 0 = `datetime.min`, where the subtraction of one day
overflows. -/
theorem C6_nan_policy_witness :
    exOk (get_precond omniTestLines (jan1Us 2001) 24) = true ∧
    (meansOf demoData (jan1Us 1999 - usPerDay) (jan1Us 1999)).b = none ∧
    get_precond omniTestLines 0 24 = .error PyErr.overflowError :=
  ⟨C6_nan_policy_amended.1 omniTestLines (jan1Us 2001) 24 (by decide) (by decide)
     (by decide),
   C6_nan_policy_amended.2.1 demoData (jan1Us 1999 - usPerDay) (jan1Us 1999)
     (by decide),
   C6_nan_policy_amended.2.2 omniTestLines 0 24 (by decide) (by decide)⟩

/-- C7: the claim says parsing produces one absolute timestamp per record,
parallel to the value arrays.  The additive-convention part of the claim is
honoured per line (doy=1, hour=0 maps to Jan 1 + 1 day = Jan 2 00:00), but
the `'time'` entry of the 6-record fixture ends up a single scalar — the
last line's timestamp — because the assignment lacks the `[i]` index, so
no parallel timestamp sequence exists. -/
theorem C7_time_scalar_bug :
    (load_omni omniTestLines).map OmniData.time
      = .ok (TimeField.scalar (17527574 * usPerHour)) ∧
    (parseLine quirkLine).map LineRec.time = .ok (jan1Us 2000 + usPerDay) := by
  refine ⟨by decide, by decide⟩

/-- C8 counterexample: the claim says a line that does not split into
exactly 11 tokens must fail with `FormatError`.  The code accepts both a
12-token line (the extra token is ignored) and a 10-token line (only
indices 0..9 are ever read, because of the `parts[j+2]` indexing), raising
nothing. -/
theorem C8_token_count_counterexample :
    exOk (load_omni [julyLine ++ [ftok 99]]) = true ∧
    exOk (load_omni [julyLine.take 10]) = true := by
  exact ⟨by decide, by decide⟩

/-- C8 amended: parsing fails (with an `IndexError`/`ValueError`/
`OverflowError`, there is no dedicated `FormatError`) exactly when some
line fails the per-line read — i.e. has fewer than 10 tokens, or a token
among its first ten that the reads reject — and on failure no partial
dataset is returned; tokens beyond index 9 are ignored entirely, so lines
with extra tokens are accepted. -/
theorem C8_parse_failure_amended :
    (∀ lines : List Line,
      exOk (load_omni lines) = true ↔ ∀ l ∈ lines, exOk (parseLine l) = true) ∧
    ∀ (l : Line) (extra : List Token), 10 ≤ l.length →
      parseLine (l ++ extra) = parseLine l := by
  constructor
  · intro lines
    rw [load_omni_ok_iff]
    exact parseLines_ok_iff lines
  · intro l extra hlen
    have h0 : (l ++ extra)[(0:ℕ)]? = l[(0:ℕ)]? := List.getElem?_append_left (by omega)
    have h1 : (l ++ extra)[(1:ℕ)]? = l[(1:ℕ)]? := List.getElem?_append_left (by omega)
    have h2 : (l ++ extra)[(2:ℕ)]? = l[(2:ℕ)]? := List.getElem?_append_left (by omega)
    have h3 : (l ++ extra)[(3:ℕ)]? = l[(3:ℕ)]? := List.getElem?_append_left (by omega)
    have h4 : (l ++ extra)[(4:ℕ)]? = l[(4:ℕ)]? := List.getElem?_append_left (by omega)
    have h5 : (l ++ extra)[(5:ℕ)]? = l[(5:ℕ)]? := List.getElem?_append_left (by omega)
    have h6 : (l ++ extra)[(6:ℕ)]? = l[(6:ℕ)]? := List.getElem?_append_left (by omega)
    have h7 : (l ++ extra)[(7:ℕ)]? = l[(7:ℕ)]? := List.getElem?_append_left (by omega)
    have h8 : (l ++ extra)[(8:ℕ)]? = l[(8:ℕ)]? := List.getElem?_append_left (by omega)
    have h9 : (l ++ extra)[(9:ℕ)]? = l[(9:ℕ)]? := List.getElem?_append_left (by omega)
    unfold parseLine intAt floatAt
    simp only [h0, h1, h2, h3, h4, h5, h6, h7, h8, h9]

/-- C8 witness: appending stray tokens to the 11-token july record does not
change how it parses. -/
theorem C8_parse_failure_witness :
    parseLine (julyLine ++ [ftok 99, ftok 7]) = parseLine julyLine :=
  C8_parse_failure_amended.2 julyLine [ftok 99, ftok 7] (by decide)

/-- C9: `calc_clock` changes only the `'clock'` entry — every other entry,
including `'time'`, is unchanged — and the aggregation is a read-only
function of the dataset: for every epoch whose window subtraction stays in
the datetime range, `get_precond` factors as parsing followed by the pure
`meansOf` applied to the clock-extended dataset, with no further writes to
the dataset. -/
theorem C9_frame_condition :
    (∀ d : OmniData,
      (calc_clock d).b = d.b ∧ (calc_clock d).bx = d.bx ∧
      (calc_clock d).by_ = d.by_ ∧ (calc_clock d).bz = d.bz ∧
      (calc_clock d).dens = d.dens ∧ (calc_clock d).v = d.v ∧
      (calc_clock d).pdyn = d.pdyn ∧ (calc_clock d).dst = d.dst ∧
      (calc_clock d).time = d.time) ∧
    ∀ (lines : List Line) (epoch : ℤ) (span : ℚ),
      0 ≤ epoch - usPerDay → epoch - usPerDay < maxUs →
      get_precond lines epoch span
        = (load_omni lines).map fun d =>
            meansOf (calc_clock d) (epoch - usPerDay) epoch := by
  constructor
  · intro d
    exact ⟨rfl, rfl, rfl, rfl, rfl, rfl, rfl, rfl, rfl⟩
  · intro lines epoch span h1 h2
    show (load_omni lines >>= fun data =>
        windowLow epoch >>= fun lo => pure (meansOf (calc_clock data) lo epoch))
      = _
    cases h : load_omni lines with
    | error e => rw [exBind_error]; rfl
    | ok data =>
      rw [exBind_ok, windowLow, if_neg (by omega), exBind_ok]
      rfl

/-- C9 witness: the factoring instantiated at the test fixture and the
tests' (in-range) epoch. -/
theorem C9_frame_condition_witness :
    get_precond omniTestLines testEpoch 24
      = (load_omni omniTestLines).map fun d =>
          meansOf (calc_clock d) (testEpoch - usPerDay) testEpoch :=
  C9_frame_condition.2 omniTestLines testEpoch 24 (by decide) (by decide)

/-- C10: `calc_clock` is idempotent — a second application recomputes the
`'clock'` entry from the unchanged `'by'` and `'bz'` entries, yielding the
identical dataset. -/
theorem C10_calc_clock_idempotent :
    ∀ d : OmniData, calc_clock (calc_clock d) = calc_clock d :=
  fun _ => rfl
